import Mathlib

/-!
# Verification of `list_compute.py`

Shallow embedding of the Databricks cluster-listing script `list_compute.py`.

The script is a linear pipeline: read a list of cluster identifiers from a
text file, build two lookup maps (id → record, name → id) from one cluster
enumeration, resolve each identifier (id first, then name), enrich each
resolved record with a cached policy-name lookup, and export to CSV.

Python dictionaries are modelled as association lists where new bindings are
prepended, so that lookup (first match) sees the most recent write — this
reproduces dict overwrite semantics.  Remote API calls are modelled as
deterministic functions into `Except`, with the list of remotely queried
policy ids tracked explicitly so that the cache efficiency property can be
stated.  `sys.exit(1)` is modelled as an error value / exit code.
-/

namespace ListCompute

/-- Lookup in an association list modelling a Python dict read: returns the
value of the first matching key.  Maps are built by prepending, so the first
match is the most recent write, exactly dict semantics. -/
def dictGet {α : Type} (k : String) : List (String × α) → Option α
  | [] => none
  | (k', v) :: rest => if k = k' then some v else dictGet k rest

/-- Python truthiness of an optional string: `None` and `''` are falsy. -/
def pyTruthy : Option String → Bool
  | none => false
  | some s => if s = "" then false else true

/-- The fields of the SDK's `ClusterDetails` object consumed by the script. -/
structure ClusterDetails where
  cluster_id : Option String
  cluster_name : Option String
  policy_id : Option String
deriving DecidableEq

/-- The fields of the SDK's cluster policy object consumed by the script. -/
structure Policy where
  name : Option String
deriving DecidableEq

/-- One result row: the dict built by `extract_cluster_fields` plus the
`policy_name` entry added in the processing loop (`none` models a key that is
absent or maps to `None`). -/
structure Row where
  cluster_name : Option String
  policy_id : Option String
  policy_name : Option String
deriving DecidableEq

/-- Result of one `get_policy_name` call: the returned value, the cache after
the call, and the list of policy ids for which a remote
`cluster_policies.get` request was issued during the call. -/
structure PolicyLookupOut where
  result : Option String
  cache : List (String × String)
  calls : List String
deriving DecidableEq

/-- Embedding of `get_policy_name` (list_compute.py:35-59).  `api` models
`w.cluster_policies.get`: `Except.error` models a raised exception.  The cache
stores `''` as the empty marker for "no name / lookup failed". -/
def get_policy_name (api : String → Except Unit Policy) (policy_id : Option String)
    (policy_cache : List (String × String)) : PolicyLookupOut :=
  match policy_id with
  | none => ⟨none, policy_cache, []⟩
  | some pid =>
    if pid = "" then ⟨none, policy_cache, []⟩
    else
      match dictGet pid policy_cache with
      | some cached => ⟨if cached = "" then none else some cached, policy_cache, []⟩
      | none =>
        match api pid with
        | Except.ok policy =>
          let policy_name : Option String :=
            match policy.name with
            | some n => if n = "" then none else some n
            | none => none
          ⟨policy_name, (pid, policy_name.getD ("")) :: policy_cache, [pid]⟩
        | Except.error _ => ⟨none, (pid, "") :: policy_cache, [pid]⟩

/-- Embedding of `extract_cluster_fields` (list_compute.py:62-72): projects a cluster to
the two exported fields; the `policy_name` key is absent at this point. -/
def extract_cluster_fields (cluster : ClusterDetails) : Row :=
  { cluster_name :=
      match cluster.cluster_name with
      | some n => if n = "" then none else some n
      | none => none
    policy_id := cluster.policy_id
    policy_name := none }

/-- The map-building loop of `fetch_cluster_details` (list_compute.py:116-125)
with the two accumulated dicts made explicit.  A cluster enters `all_clusters`
only when its id is truthy; its name maps to its (possibly absent) id only
when the name is truthy. -/
def buildIndexAux : List ClusterDetails → List (String × ClusterDetails) →
    List (String × Option String) →
    List (String × ClusterDetails) × List (String × Option String)
  | [], all_clusters, cluster_name_to_id => (all_clusters, cluster_name_to_id)
  | cluster :: rest, all_clusters, cluster_name_to_id =>
    let all_clusters' :=
      if pyTruthy cluster.cluster_id then
        (cluster.cluster_id.getD (""), cluster) :: all_clusters
      else all_clusters
    let cluster_name_to_id' :=
      if pyTruthy cluster.cluster_name then
        (cluster.cluster_name.getD (""), cluster.cluster_id) :: cluster_name_to_id
      else cluster_name_to_id
    buildIndexAux rest all_clusters' cluster_name_to_id'

/-- Builds `(all_clusters, cluster_name_to_id)` from the enumeration returned
by `w.clusters.list()`. -/
def buildIndex (listing : List ClusterDetails) :
    List (String × ClusterDetails) × List (String × Option String) :=
  buildIndexAux listing [] []

/-- The per-identifier resolution of `fetch_cluster_details`
(list_compute.py:148-154): try the identifier as a cluster id, then as a
cluster name (`all_clusters.get(cluster_id)` on the mapped id). -/
def resolveOne (all_clusters : List (String × ClusterDetails))
    (cluster_name_to_id : List (String × Option String)) (identifier : String) :
    Option ClusterDetails :=
  match dictGet identifier all_clusters with
  | some cluster => some cluster
  | none =>
    match dictGet identifier cluster_name_to_id with
    | some (some cluster_id) => dictGet cluster_id all_clusters
    | some none => none
    | none => none

/-- Result of the identifier-processing loop: resolved rows, not-found
identifiers, final policy cache, and all remotely queried policy ids in
order. -/
structure ProcessOut where
  clusters : List Row
  notFound : List String
  cache : List (String × String)
  calls : List String
deriving DecidableEq

/-- The identifier-processing loop of `fetch_cluster_details`
(list_compute.py:145-175), threading the policy cache through the
iterations. -/
def processIdentifiers (api : String → Except Unit Policy)
    (all_clusters : List (String × ClusterDetails))
    (cluster_name_to_id : List (String × Option String)) :
    List String → List (String × String) → ProcessOut
  | [], cache => ⟨[], [], cache, []⟩
  | identifier :: rest, cache =>
    match resolveOne all_clusters cluster_name_to_id identifier with
    | some cluster =>
      let cluster_data := extract_cluster_fields cluster
      let out := get_policy_name api cluster_data.policy_id cache
      let policy_name_str : Option String :=
        match out.result with
        | some s => if s = "" then none else some s
        | none => none
      let row : Row := { cluster_data with policy_name := policy_name_str }
      let restOut := processIdentifiers api all_clusters cluster_name_to_id rest out.cache
      ⟨row :: restOut.clusters, restOut.notFound, restOut.cache, out.calls ++ restOut.calls⟩
    | none =>
      let restOut := processIdentifiers api all_clusters cluster_name_to_id rest cache
      ⟨restOut.clusters, identifier :: restOut.notFound, restOut.cache, restOut.calls⟩

/-- Embedding of `fetch_cluster_details` (list_compute.py:95-187): builds the two lookup
maps from the enumeration, then processes the identifiers with a fresh empty
policy cache. -/
def fetch_cluster_details (api : String → Except Unit Policy)
    (listing : List ClusterDetails) (cluster_identifiers : List String) : ProcessOut :=
  let maps := buildIndex listing
  processIdentifiers api maps.1 maps.2 cluster_identifiers []

/-- Embedding of `line.strip()`: drop leading and trailing whitespace characters.  Defined
over the underlying character list so it is kernel-computable. -/
def pyStrip (s : String) : String :=
  ⟨((s.data.dropWhile Char.isWhitespace).reverse.dropWhile Char.isWhitespace).reverse⟩

/-- Embedding of `line.startswith('#')`. -/
def startsWithHash (s : String) : Bool :=
  match s.data with
  | [] => false
  | c :: _ => c = '#'

/-- The line-filtering loop of `read_cluster_list` (list_compute.py:85-89):
strip each line, keep it when non-empty and not starting with `#`. -/
def collectIds : List String → List String
  | [] => []
  | line :: rest =>
    let stripped := pyStrip line
    if stripped ≠ "" ∧ ¬ startsWithHash stripped then stripped :: collectIds rest
    else collectIds rest

/-- Embedding of `Path(__file__).parent / filepath` (list_compute.py:77-78) for a relative
`filepath`: the input path is joined onto the script's own directory. -/
def joinPath (dir filename : String) : String := dir ++ "/" ++ filename

/-- Embedding of `read_cluster_list` (list_compute.py:75-92).  The filesystem is modelled
as an association list from absolute paths to file lines; `Except.error ()`
models `sys.exit(1)` on a missing file.  The path looked up is always
`script_dir / filepath`, never a working-directory path. -/
def read_cluster_list (fs : List (String × List String)) (script_dir : String)
    (filepath : String) : Except Unit (List String) :=
  match dictGet (joinPath script_dir filepath) fs with
  | none => Except.error ()
  | some fileLines => Except.ok (collectIds fileLines)

/-- The fixed CSV column set (list_compute.py:196-200). -/
def fieldnames : List String := ["cluster_name", "policy_id", "policy_name"]

/-- Embedding of `cluster.get(key)` over the fixed field names (list_compute.py:207). -/
def rowGet (r : Row) (key : String) : Option String :=
  if key = "cluster_name" then r.cluster_name
  else if key = "policy_id" then r.policy_id
  else if key = "policy_name" then r.policy_name
  else none

/-- Embedding of `export_to_csv` (list_compute.py:190-217).  The produced file is modelled
as a list of cell rows (header first); `none` models "no file written"
(the empty-input no-op).  A `None` cell is serialized as the empty string by
the CSV writer. -/
def export_to_csv (clusters : List Row) : Option (List (List String)) :=
  if clusters.isEmpty then none
  else
    let sanitized := clusters.map (fun cluster => fieldnames.map (fun key => rowGet cluster key))
    some (fieldnames :: sanitized.map (fun row => row.map (fun v => v.getD (""))))

/-- Outcome of the `w.clusters.list()` enumeration in `fetch_cluster_details`:
success with a snapshot, a raised exception (list_compute.py:131-140), or a
`KeyboardInterrupt` (list_compute.py:127-130). -/
inductive ListingOutcome
  | ok (clusters : List ClusterDetails)
  | failure
  | interrupted
deriving DecidableEq

/-- Embedding of `main` (list_compute.py:250-278) composed with `get_workspace_client`
(list_compute.py:19-32): returns the process exit code and the CSV file
content written (`none` when no file is written).  `host`/`token` model the
two environment variables (`none` = unset). -/
def mainRun (fs : List (String × List String)) (script_dir : String)
    (host token : Option String) (api : String → Except Unit Policy)
    (listing : ListingOutcome) (input_file : String) :
    Nat × Option (List (List String)) :=
  match read_cluster_list fs script_dir input_file with
  | Except.error _ => (1, none)
  | Except.ok cluster_identifiers =>
    if cluster_identifiers.isEmpty then (1, none)
    else
      if pyTruthy host then
        if pyTruthy token then
          match listing with
          | ListingOutcome.failure => (1, none)
          | ListingOutcome.interrupted => (1, none)
          | ListingOutcome.ok listing_clusters =>
            let maps := buildIndex listing_clusters
            let out := processIdentifiers api maps.1 maps.2 cluster_identifiers []
            (0, export_to_csv out.clusters)
        else (1, none)
      else (1, none)

/-! ## Basic lemmas about the dictionary model -/

theorem dictGet_cons {α : Type} (k k' : String) (v : α) (l : List (String × α)) :
    dictGet k ((k', v) :: l) = if k = k' then some v else dictGet k l := rfl

theorem dictGet_isSome_cons {α : Type} {k : String} {l : List (String × α)}
    (k' : String) (v : α) (h : (dictGet k l).isSome) :
    (dictGet k ((k', v) :: l)).isSome := by
  rw [dictGet_cons]
  by_cases hk : k = k'
  · simp [hk]
  · simpa [hk] using h

/-! ## Lemmas about the cluster index -/

theorem buildIndexAux_fst_isSome (cs : List ClusterDetails) :
    ∀ by_id by_name k, (dictGet k by_id).isSome →
      (dictGet k (buildIndexAux cs by_id by_name).1).isSome := by
  induction cs with
  | nil => intro by_id by_name k h; exact h
  | cons c rest ih =>
    intro by_id by_name k h
    simp only [buildIndexAux]
    apply ih
    by_cases hid : pyTruthy c.cluster_id
    · simp only [hid, if_true]
      exact dictGet_isSome_cons _ _ h
    · simpa [hid] using h

theorem buildIndexAux_truthy_image (cs : List ClusterDetails) :
    ∀ by_id by_name,
      (∀ n id, dictGet n by_name = some (some id) → id ≠ "" → (dictGet id by_id).isSome) →
      ∀ n id, dictGet n (buildIndexAux cs by_id by_name).2 = some (some id) → id ≠ "" →
        (dictGet id (buildIndexAux cs by_id by_name).1).isSome := by
  induction cs with
  | nil => intro by_id by_name h n id hn hid; exact h n id hn hid
  | cons c rest ih =>
    intro by_id by_name h n id hn hid
    simp only [buildIndexAux] at hn ⊢
    refine ih _ _ ?_ n id hn hid
    intro n' id' hn' hid'
    by_cases hname : pyTruthy c.cluster_name
    · simp only [hname, if_true, dictGet_cons] at hn'
      by_cases hkey : n' = c.cluster_name.getD ("")
      · simp only [hkey, if_true] at hn'
        have hcid : c.cluster_id = some id' := by
          simpa using hn'
        simp [hcid, pyTruthy, hid', dictGet_cons]
      · simp only [hkey, if_false] at hn'
        have := h n' id' hn' hid'
        by_cases hid2 : pyTruthy c.cluster_id
        · simp only [hid2, if_true]
          exact dictGet_isSome_cons _ _ this
        · simpa [hid2] using this
    · simp only [hname, if_false] at hn'
      have := h n' id' hn' hid'
      by_cases hid2 : pyTruthy c.cluster_id
      · simp only [hid2, if_true]
        exact dictGet_isSome_cons _ _ this
      · simpa [hid2] using this

theorem buildIndexAux_snd_values (cs : List ClusterDetails) :
    ∀ by_id by_name n v, dictGet n (buildIndexAux cs by_id by_name).2 = some v →
      (∃ c, c ∈ cs ∧ c.cluster_id = v) ∨ dictGet n by_name = some v := by
  induction cs with
  | nil => intro by_id by_name n v h; exact Or.inr h
  | cons c rest ih =>
    intro by_id by_name n v h
    simp only [buildIndexAux] at h
    rcases ih _ _ _ _ h with ⟨c', hc', hv⟩ | hacc
    · exact Or.inl ⟨c', List.mem_cons_of_mem _ hc', hv⟩
    · by_cases hname : pyTruthy c.cluster_name
      · simp only [hname, if_true, dictGet_cons] at hacc
        by_cases hkey : n = c.cluster_name.getD ("")
        · simp only [hkey, if_true] at hacc
          exact Or.inl ⟨c, List.mem_cons_self _ _, by simpa using hacc⟩
        · simp only [hkey, if_false] at hacc
          exact Or.inr hacc
      · simp only [hname, if_false] at hacc
        exact Or.inr hacc

/-- C2: the claim as stated is false: a cluster record may carry a truthy
name together with a falsy (here: empty-string) id; it is then skipped by the
`if cluster.cluster_id` guard and never enters `all_clusters`, while its name
still maps to that id in `cluster_name_to_id`.  Concretely, for the
enumeration `[{cluster_id = "", cluster_name = "X"}]`, the image of the
name-to-id map contains `""`, which is not a key of `all_clusters`. -/
theorem buildIndex_image_not_subset_counterexample :
    ¬ (∀ n v, dictGet n (buildIndex [⟨some (""), some ("X"), none⟩]).2 = some v →
        ∃ k, v = some k ∧ (dictGet k (buildIndex [⟨some (""), some ("X"), none⟩]).1).isSome) := by
  intro h
  obtain ⟨k, hk, hsome⟩ := h ("X") (some ("")) (by decide)
  have hk' : k = "" := by
    cases hk
    rfl
  rw [hk'] at hsome
  have : dictGet ("") (buildIndex [⟨some (""), some ("X"), none⟩]).1 = none := by decide
  rw [this] at hsome
  simp at hsome

theorem buildIndex_image_key (cs : List ClusterDetails) (n id : String)
    (h : dictGet n (buildIndex cs).2 = some (some id)) (hid : id ≠ "") :
    (dictGet id (buildIndex cs).1).isSome := by
  refine buildIndexAux_truthy_image cs [] [] ?_ n id h hid
  intro n' id' hn'
  simp [dictGet] at hn'

/-- C2 (amended): after the index is built, every **non-empty** id in the
image of `cluster_name_to_id` is a key of `all_clusters`, for every
enumeration of cluster records.  (A record whose name is truthy but whose id
is `None` or `''` puts that falsy id into the image without a corresponding
`all_clusters` key, which is the only way the unrestricted claim fails.) -/
theorem buildIndex_truthy_image_subset (cs : List ClusterDetails) (n id : String)
    (h : dictGet n (buildIndex cs).2 = some (some id)) (hid : id ≠ "") :
    (dictGet id (buildIndex cs).1).isSome :=
  buildIndex_image_key cs n id h hid

/-- C2 witness: a concrete instance of the amended invariant. -/
theorem buildIndex_truthy_image_subset_witness :
    (dictGet ("A") (buildIndex [⟨some ("A"), some ("X"), none⟩]).1).isSome :=
  buildIndex_truthy_image_subset [⟨some ("A"), some ("X"), none⟩] "X" "A"
    (by decide) (by decide)

/-! ## Resolution (C3) -/

/-- C3: the claim as stated is false.  A record with a truthy name and a
falsy id (here `None`) makes its name a key of `cluster_name_to_id`, yet
resolution of that name fails: the mapped id is falsy, so
`all_clusters.get(cluster_id)` finds nothing.  Concretely, for the snapshot
`[{cluster_id = None, cluster_name = "X"}]` the identifier `"X"` occurs as a
name key but the resolver yields nothing. -/
theorem resolveOne_name_key_counterexample :
    (dictGet ("X") (buildIndex [⟨none, some ("X"), none⟩]).2).isSome = true ∧
    resolveOne (buildIndex [⟨none, some ("X"), none⟩]).1
      (buildIndex [⟨none, some ("X"), none⟩]).2 "X" = none := by
  decide

/-- C3 (amended): provided every record of the snapshot has a truthy cluster
id, resolution succeeds for every identifier occurring as an id key or a name
key, trying the id interpretation first: an id key resolves to its
`all_clusters` record directly, and otherwise a name key resolves to the
`all_clusters` record of the mapped id. -/
theorem resolveOne_succeeds_on_snapshot_keys (cs : List ClusterDetails) (identifier : String)
    (hids : ∀ c ∈ cs, pyTruthy c.cluster_id = true)
    (hkey : (dictGet identifier (buildIndex cs).1).isSome ∨
      (dictGet identifier (buildIndex cs).2).isSome) :
    ∃ c, resolveOne (buildIndex cs).1 (buildIndex cs).2 identifier = some c ∧
      (dictGet identifier (buildIndex cs).1 = some c ∨
       (dictGet identifier (buildIndex cs).1 = none ∧
        ∃ cid, dictGet identifier (buildIndex cs).2 = some (some cid) ∧
          dictGet cid (buildIndex cs).1 = some c)) := by
  cases hbyid : dictGet identifier (buildIndex cs).1 with
  | some c =>
    refine ⟨c, ?_, Or.inl rfl⟩
    simp [resolveOne, hbyid]
  | none =>
    have hname : (dictGet identifier (buildIndex cs).2).isSome := by
      rcases hkey with h | h
      · rw [hbyid] at h; simp at h
      · exact h
    obtain ⟨v, hv⟩ := Option.isSome_iff_exists.mp hname
    rcases buildIndexAux_snd_values cs [] [] identifier v hv with ⟨c', hc', hvid⟩ | habs
    · have htruthy := hids c' hc'
      rw [hvid] at htruthy
      cases v with
      | none => simp [pyTruthy] at htruthy
      | some cid =>
        have hcid : cid ≠ "" := by
          intro hcc
          rw [hcc] at htruthy
          simp [pyTruthy] at htruthy
        obtain ⟨c, hc⟩ := Option.isSome_iff_exists.mp
          (buildIndex_image_key cs identifier cid hv hcid)
        refine ⟨c, ?_, Or.inr ⟨rfl, cid, hv, hc⟩⟩
        simp [resolveOne, hbyid, hv, hc]
    · simp [dictGet] at habs

/-- C3 witness: a concrete snapshot where a name key resolves to the record
of the mapped id. -/
theorem resolveOne_succeeds_on_snapshot_keys_witness :
    ∃ c, resolveOne (buildIndex [⟨some ("A"), some ("X"), none⟩]).1
        (buildIndex [⟨some ("A"), some ("X"), none⟩]).2 "X" = some c ∧
      (dictGet ("X") (buildIndex [⟨some ("A"), some ("X"), none⟩]).1 = some c ∨
       (dictGet ("X") (buildIndex [⟨some ("A"), some ("X"), none⟩]).1 = none ∧
        ∃ cid, dictGet ("X") (buildIndex [⟨some ("A"), some ("X"), none⟩]).2 = some (some cid) ∧
          dictGet cid (buildIndex [⟨some ("A"), some ("X"), none⟩]).1 = some c)) :=
  resolveOne_succeeds_on_snapshot_keys [⟨some ("A"), some ("X"), none⟩] "X"
    (by decide) (Or.inr (by decide))

/-! ## Policy cache lemmas (C1, C7) -/

theorem get_policy_name_cache_mono (api : String → Except Unit Policy)
    (pid : Option String) (cache : List (String × String)) :
    ∀ k v, dictGet k cache = some v →
      dictGet k (get_policy_name api pid cache).cache = some v := by
  intro k v h
  cases pid with
  | none => exact h
  | some p =>
    by_cases hp : p = ""
    · simpa [get_policy_name, hp] using h
    · cases hc : dictGet p cache with
      | some cached => simpa [get_policy_name, hp, hc] using h
      | none =>
        have hne : k ≠ p := by
          intro he
          rw [he, hc] at h
          exact Option.noConfusion h
        cases ha : api p with
        | ok policy => simpa [get_policy_name, hp, hc, ha, dictGet_cons, hne] using h
        | error e => simpa [get_policy_name, hp, hc, ha, dictGet_cons, hne] using h

theorem get_policy_name_calls_cases (api : String → Except Unit Policy)
    (pid : Option String) (cache : List (String × String)) :
    (get_policy_name api pid cache).calls = [] ∨
    ∃ p, pid = some p ∧ p ≠ "" ∧ dictGet p cache = none ∧
      (get_policy_name api pid cache).calls = [p] ∧
      (dictGet p (get_policy_name api pid cache).cache).isSome := by
  cases pid with
  | none => exact Or.inl rfl
  | some p =>
    by_cases hp : p = ""
    · exact Or.inl (by simp [get_policy_name, hp])
    · cases hc : dictGet p cache with
      | some cached => exact Or.inl (by simp [get_policy_name, hp, hc])
      | none =>
        refine Or.inr ⟨p, rfl, hp, hc, ?_, ?_⟩
        · cases ha : api p with
          | ok policy => simp [get_policy_name, hp, hc, ha]
          | error e => simp [get_policy_name, hp, hc, ha]
        · cases ha : api p with
          | ok policy => simp [get_policy_name, hp, hc, ha, dictGet_cons]
          | error e => simp [get_policy_name, hp, hc, ha, dictGet_cons]

theorem processIdentifiers_cache_mono (api : String → Except Unit Policy)
    (a : List (String × ClusterDetails)) (b : List (String × Option String))
    (ids : List String) :
    ∀ cache k v, dictGet k cache = some v →
      dictGet k (processIdentifiers api a b ids cache).cache = some v := by
  induction ids with
  | nil => intro cache k v h; exact h
  | cons i rest ih =>
    intro cache k v h
    cases hr : resolveOne a b i with
    | some cluster =>
      simp only [processIdentifiers, hr]
      exact ih _ k v (get_policy_name_cache_mono api _ cache k v h)
    | none =>
      simp only [processIdentifiers, hr]
      exact ih _ k v h

theorem processIdentifiers_calls_spec (api : String → Except Unit Policy)
    (a : List (String × ClusterDetails)) (b : List (String × Option String))
    (ids : List String) :
    ∀ cache q, q ∈ (processIdentifiers api a b ids cache).calls →
      dictGet q cache = none ∧
      (dictGet q (processIdentifiers api a b ids cache).cache).isSome := by
  induction ids with
  | nil => intro cache q hq; simp [processIdentifiers] at hq
  | cons i rest ih =>
    intro cache q hq
    cases hr : resolveOne a b i with
    | some cluster =>
      simp only [processIdentifiers, hr] at hq ⊢
      rw [List.mem_append] at hq
      rcases hq with hq | hq
      · rcases get_policy_name_calls_cases api (extract_cluster_fields cluster).policy_id cache with
          hnil | ⟨p, _, _, hmiss, hcalls, hsome⟩
        · rw [hnil] at hq; simp at hq
        · rw [hcalls] at hq
          have hqp : q = p := by simpa using hq
          subst hqp
          refine ⟨hmiss, ?_⟩
          obtain ⟨v, hv⟩ := Option.isSome_iff_exists.mp hsome
          exact Option.isSome_iff_exists.mpr
            ⟨v, processIdentifiers_cache_mono api a b rest _ q v hv⟩
      · have h2 := ih _ q hq
        refine ⟨?_, h2.2⟩
        cases hgc : dictGet q cache with
        | none => rfl
        | some v =>
          have hmono := get_policy_name_cache_mono api
            (extract_cluster_fields cluster).policy_id cache q v hgc
          rw [hmono] at h2
          exact Option.noConfusion h2.1
    | none =>
      simp only [processIdentifiers, hr] at hq ⊢
      exact ih _ q hq

theorem processIdentifiers_calls_nodup (api : String → Except Unit Policy)
    (a : List (String × ClusterDetails)) (b : List (String × Option String))
    (ids : List String) :
    ∀ cache, (processIdentifiers api a b ids cache).calls.Nodup := by
  induction ids with
  | nil => intro cache; simp [processIdentifiers]
  | cons i rest ih =>
    intro cache
    cases hr : resolveOne a b i with
    | some cluster =>
      simp only [processIdentifiers, hr]
      refine List.Nodup.append ?_ (ih _) ?_
      · rcases get_policy_name_calls_cases api (extract_cluster_fields cluster).policy_id cache with
          hnil | ⟨p, _, _, _, hcalls, _⟩
        · rw [hnil]; exact List.nodup_nil
        · rw [hcalls]; exact List.nodup_singleton p
      · intro q hq1 hq2
        rcases get_policy_name_calls_cases api (extract_cluster_fields cluster).policy_id cache with
          hnil | ⟨p, _, _, _, hcalls, hsome⟩
        · rw [hnil] at hq1; simp at hq1
        · rw [hcalls] at hq1
          have hqp : q = p := by simpa using hq1
          subst hqp
          have hnone := (processIdentifiers_calls_spec api a b rest _ q hq2).1
          rw [hnone] at hsome
          simp at hsome
    | none =>
      simp only [processIdentifiers, hr]
      exact ih _

/-- C1: across one whole run of `fetch_cluster_details` (which starts with a
fresh empty policy cache), the remote `cluster_policies.get` lookup is issued
at most once per distinct policy id, no matter how many resolved clusters
reference that policy id: after the first lookup the cache answers all later
`get_policy_name` calls for the same id. -/
theorem policy_lookup_at_most_once (api : String → Except Unit Policy)
    (listing : List ClusterDetails) (cluster_identifiers : List String) (pid : String) :
    ((fetch_cluster_details api listing cluster_identifiers).calls).count pid ≤ 1 := by
  have h := processIdentifiers_calls_nodup api (buildIndex listing).1 (buildIndex listing).2
    cluster_identifiers []
  exact List.nodup_iff_count_le_one.mp h pid

/-- C7: `get_policy_name` with an absent (`None`) or empty policy id returns
`None` and leaves the cache untouched with no remote call; on a cache miss it
issues exactly one remote lookup; when that lookup raises, it stores the
empty marker `''` in the cache and returns `None` (the embedding is a total
function: no exception escapes to the caller). -/
theorem get_policy_name_contract (api : String → Except Unit Policy)
    (cache : List (String × String)) :
    (get_policy_name api none cache = ⟨none, cache, []⟩) ∧
    (get_policy_name api (some ("")) cache = ⟨none, cache, []⟩) ∧
    (∀ pid, pid ≠ "" → dictGet pid cache = none →
      (get_policy_name api (some pid) cache).calls = [pid]) ∧
    (∀ pid e, pid ≠ "" → dictGet pid cache = none → api pid = Except.error e →
      get_policy_name api (some pid) cache = ⟨none, (pid, "") :: cache, [pid]⟩) := by
  refine ⟨rfl, by simp [get_policy_name], ?_, ?_⟩
  · intro pid hp hmiss
    cases ha : api pid with
    | ok policy => simp [get_policy_name, hp, hmiss, ha]
    | error e => simp [get_policy_name, hp, hmiss, ha]
  · intro pid e hp hmiss ha
    simp [get_policy_name, hp, hmiss, ha]

/-- C7 witness: concrete instances of all four conjuncts, with an api that
always raises. -/
theorem get_policy_name_contract_witness :
    (get_policy_name (fun _ => Except.error ()) none [] = ⟨none, [], []⟩) ∧
    (get_policy_name (fun _ => Except.error ()) (some ("")) [] = ⟨none, [], []⟩) ∧
    ((get_policy_name (fun _ => Except.error ()) (some ("p1")) []).calls = ["p1"]) ∧
    (get_policy_name (fun _ => Except.error ()) (some ("p1")) [] = ⟨none, [("p1", "")], ["p1"]⟩) :=
  ⟨(get_policy_name_contract (fun _ => Except.error ()) []).1,
   (get_policy_name_contract (fun _ => Except.error ()) []).2.1,
   (get_policy_name_contract (fun _ => Except.error ()) []).2.2.1 "p1" (by decide) rfl,
   (get_policy_name_contract (fun _ => Except.error ()) []).2.2.2 "p1" () (by decide) rfl rfl⟩

/-! ## Resolver output shape (C4) -/

theorem processIdentifiers_notFound_eq (api : String → Except Unit Policy)
    (a : List (String × ClusterDetails)) (b : List (String × Option String))
    (ids : List String) :
    ∀ cache, (processIdentifiers api a b ids cache).notFound
      = ids.filter (fun i => (resolveOne a b i).isNone) := by
  induction ids with
  | nil => intro cache; simp [processIdentifiers]
  | cons i rest ih =>
    intro cache
    cases hr : resolveOne a b i with
    | some cluster =>
      simp only [processIdentifiers, hr]
      rw [List.filter_cons]
      simp [hr, ih _]
    | none =>
      simp only [processIdentifiers, hr]
      rw [List.filter_cons]
      simp [hr, ih _]

theorem processIdentifiers_clusters_eq (api : String → Except Unit Policy)
    (a : List (String × ClusterDetails)) (b : List (String × Option String))
    (ids : List String) :
    ∀ cache, (processIdentifiers api a b ids cache).clusters.map
        (fun r => (r.cluster_name, r.policy_id))
      = (ids.filterMap (resolveOne a b)).map
          (fun c => ((extract_cluster_fields c).cluster_name,
            (extract_cluster_fields c).policy_id)) := by
  induction ids with
  | nil => intro cache; simp [processIdentifiers]
  | cons i rest ih =>
    intro cache
    cases hr : resolveOne a b i with
    | some cluster =>
      simp only [processIdentifiers, hr, List.filterMap_cons]
      simp [hr, ih _]
    | none =>
      simp only [processIdentifiers, hr, List.filterMap_cons]
      simp [hr, ih _]

/-- C4: the processing loop produces the not-found identifiers in original
input order (exactly those on which resolution fails) and the resolved rows
in original input order with not-found entries omitted, each row carrying the
fields of its resolved record; an identifier absent from both maps lands in
the not-found list and contributes no row. -/
theorem resolver_outputs_ordered (api : String → Except Unit Policy)
    (listing : List ClusterDetails) (ids : List String) :
    ((fetch_cluster_details api listing ids).notFound
      = ids.filter (fun i =>
          (resolveOne (buildIndex listing).1 (buildIndex listing).2 i).isNone)) ∧
    ((fetch_cluster_details api listing ids).clusters.map
        (fun r => (r.cluster_name, r.policy_id))
      = (ids.filterMap (resolveOne (buildIndex listing).1 (buildIndex listing).2)).map
          (fun c => ((extract_cluster_fields c).cluster_name,
            (extract_cluster_fields c).policy_id))) ∧
    (∀ i ∈ ids, dictGet i (buildIndex listing).1 = none →
      dictGet i (buildIndex listing).2 = none →
      i ∈ (fetch_cluster_details api listing ids).notFound) := by
  refine ⟨processIdentifiers_notFound_eq api _ _ ids [],
    processIdentifiers_clusters_eq api _ _ ids [], ?_⟩
  intro i hi h1 h2
  have hres : resolveOne (buildIndex listing).1 (buildIndex listing).2 i = none := by
    simp [resolveOne, h1, h2]
  have hnf := processIdentifiers_notFound_eq api (buildIndex listing).1
    (buildIndex listing).2 ids []
  show i ∈ (fetch_cluster_details api listing ids).notFound
  rw [show (fetch_cluster_details api listing ids).notFound
      = (processIdentifiers api (buildIndex listing).1 (buildIndex listing).2 ids []).notFound
    from rfl, hnf]
  exact List.mem_filter.mpr ⟨hi, by simp [hres]⟩

/-- C4 witness: an identifier absent from both maps ends up in the not-found
sequence. -/
theorem resolver_outputs_ordered_witness :
    "zzz" ∈ (fetch_cluster_details (fun _ => Except.error ())
      [⟨some ("A"), some ("N"), none⟩] ["A", "zzz"]).notFound :=
  (resolver_outputs_ordered (fun _ => Except.error ())
    [⟨some ("A"), some ("N"), none⟩] ["A", "zzz"]).2.2 "zzz"
    (by decide) (by decide) (by decide)

/-! ## List reader (C5) -/

theorem collectIds_eq_filterMap (fileLines : List String) :
    collectIds fileLines = fileLines.filterMap (fun line =>
      if pyStrip line ≠ "" ∧ ¬ startsWithHash (pyStrip line)
      then some (pyStrip line) else none) := by
  induction fileLines with
  | nil => rfl
  | cons line rest ih =>
    by_cases h : pyStrip line ≠ "" ∧ ¬ startsWithHash (pyStrip line)
    · simp only [collectIds, List.filterMap_cons, if_pos h, ih]
    · simp only [collectIds, List.filterMap_cons, if_neg h, ih]

/-- C5: for an existing input file, the reader returns exactly the file's
lines that are non-blank after stripping and do not start with `#`, each
stripped, in file order and with duplicates preserved (`filterMap` keeps
multiplicity and order); a missing file is a fatal error. -/
theorem read_cluster_list_contract :
    (∀ fs script_dir filepath, dictGet (joinPath script_dir filepath) fs = none →
      read_cluster_list fs script_dir filepath = Except.error ()) ∧
    (∀ fs script_dir filepath fileLines,
      dictGet (joinPath script_dir filepath) fs = some fileLines →
      read_cluster_list fs script_dir filepath
        = Except.ok (fileLines.filterMap (fun line =>
            if pyStrip line ≠ "" ∧ ¬ startsWithHash (pyStrip line)
            then some (pyStrip line) else none))) := by
  constructor
  · intro fs sd fp h
    simp [read_cluster_list, h]
  · intro fs sd fp fileLines h
    simp [read_cluster_list, h, collectIds_eq_filterMap]

/-- C5 witness: comment and blank lines are dropped, kept lines are stripped,
and a duplicated identifier appears twice; a missing file errors. -/
theorem read_cluster_list_contract_witness :
    read_cluster_list
        [("./in.txt", ["cluster-123", "# comment", "", "  My Cluster ", "cluster-123"])]
        "." "in.txt"
      = Except.ok ["cluster-123", "My Cluster", "cluster-123"] ∧
    read_cluster_list [] "." "missing.txt" = Except.error () := by
  constructor
  · rw [read_cluster_list_contract.2
      [("./in.txt", ["cluster-123", "# comment", "", "  My Cluster ", "cluster-123"])]
      "." "in.txt" ["cluster-123", "# comment", "", "  My Cluster ", "cluster-123"] rfl]
    rfl
  · exact read_cluster_list_contract.1 [] "." "missing.txt" rfl

/-! ## Duplicate names: last write wins (C6) -/

theorem buildIndexAux_snd_last (cs : List ClusterDetails) :
    ∀ by_id by_name (n : String), n ≠ "" →
      dictGet n (buildIndexAux cs by_id by_name).2 =
        ((cs.reverse.find? (fun c => decide (c.cluster_name = some n))).map
          (fun c => c.cluster_id)).or (dictGet n by_name) := by
  induction cs with
  | nil => intro by_id by_name n hn; simp [buildIndexAux]
  | cons c rest ih =>
    intro by_id by_name n hn
    simp only [buildIndexAux, List.reverse_cons, List.find?_append]
    rw [ih _ _ n hn]
    cases hfind : rest.reverse.find? (fun c => decide (c.cluster_name = some n)) with
    | some c₀ => simp [hfind]
    | none =>
      simp only [hfind, Option.map_none', Option.none_or]
      cases hcn : c.cluster_name with
      | none =>
        have hp : (List.find? (fun c => decide (c.cluster_name = some n)) [c]) = none := by
          simp [List.find?, hcn]
        simp [hp, pyTruthy, hcn]
      | some nm =>
        by_cases hnm : nm = n
        · subst hnm
          have hp : (List.find? (fun c => decide (c.cluster_name = some nm)) [c]) = some c := by
            simp [List.find?, hcn]
          simp [hp, hcn, pyTruthy, hn, dictGet_cons]
        · have hp : (List.find? (fun c => decide (c.cluster_name = some n)) [c]) = none := by
            simp [List.find?, hcn, hnm]
          rw [hp]
          simp only [Option.map_none', Option.none_or]
          have hkey : n ≠ nm := fun he => hnm he.symm
          by_cases hempty : nm = ""
          · simp [pyTruthy, hempty]
          · simp [pyTruthy, hempty, dictGet_cons, hkey]

/-- C6: when several records share a (non-empty) name, `cluster_name_to_id`
retains the id of the record encountered last in enumeration order: the map's
value at a name is the `cluster_id` of the last record in the enumeration
carrying that name (the first match in the reversed enumeration). -/
theorem name_map_last_write_wins (cs : List ClusterDetails) (n : String) (hn : n ≠ "") :
    dictGet n (buildIndex cs).2 =
      (cs.reverse.find? (fun c => decide (c.cluster_name = some n))).map
        (fun c => c.cluster_id) := by
  have h := buildIndexAux_snd_last cs [] [] n hn
  simpa [buildIndex, dictGet] using h

/-- C6 witness: duplicate name `"Shared"` over ids `A` (listed first) and `B`
(listed second) resolves to `B`. -/
theorem name_map_last_write_wins_witness :
    dictGet ("Shared") (buildIndex [⟨some ("A"), some ("Shared"), none⟩,
      ⟨some ("B"), some ("Shared"), none⟩]).2 = some (some ("B")) := by
  rw [name_map_last_write_wins [⟨some ("A"), some ("Shared"), none⟩,
    ⟨some ("B"), some ("Shared"), none⟩] "Shared" (by decide)]
  rfl

/-! ## CSV exporter (C8) -/

/-- C8: on a non-empty input the exporter writes the header row followed by
exactly one data row per record in sequence order, columns in the fixed order
`cluster_name, policy_id, policy_name`, missing values serialized as the
empty string; on an empty input no file is produced.  (The `Option` result
models the file write: `some` is the full new file content — the destination
is overwritten, not appended to — and `none` means no file is created or
modified.) -/
theorem export_to_csv_contract (clusters : List Row) :
    export_to_csv [] = none ∧
    (clusters ≠ [] →
      export_to_csv clusters =
        some (["cluster_name", "policy_id", "policy_name"] ::
          clusters.map (fun c =>
            [c.cluster_name.getD (""), c.policy_id.getD (""), c.policy_name.getD ("")]))) := by
  refine ⟨rfl, ?_⟩
  intro h
  cases clusters with
  | nil => exact absurd rfl h
  | cons c cs =>
    simp [export_to_csv, fieldnames, rowGet, List.map_map, Function.comp]

/-- C8 witness: a concrete record with a missing `policy_id` serializes to an
empty cell, after the header. -/
theorem export_to_csv_contract_witness :
    export_to_csv [⟨some ("c1"), none, some ("pn")⟩]
      = some [["cluster_name", "policy_id", "policy_name"], ["c1", "", "pn"]] := by
  rw [(export_to_csv_contract [⟨some ("c1"), none, some ("pn")⟩]).2 (by decide)]
  rfl

/-! ## Exit codes (C9) -/

/-- C9: the process exits with code 1 (and writes no CSV) on a missing input
file, an identifier list that is empty after filtering, a missing host
variable, a missing token variable, a failed cluster enumeration, and user
cancellation during enumeration; on normal completion it exits with code 0
and the CSV write is exactly `export_to_csv` of the resolved rows (which is
skipped when there are no rows). -/
theorem mainRun_exit_codes (fs : List (String × List String)) (script_dir : String)
    (host token : Option String) (api : String → Except Unit Policy)
    (listing : ListingOutcome) (input_file : String) :
    (dictGet (joinPath script_dir input_file) fs = none →
      mainRun fs script_dir host token api listing input_file = (1, none)) ∧
    (∀ fileLines, dictGet (joinPath script_dir input_file) fs = some fileLines →
      collectIds fileLines = [] →
      mainRun fs script_dir host token api listing input_file = (1, none)) ∧
    (∀ fileLines, dictGet (joinPath script_dir input_file) fs = some fileLines →
      collectIds fileLines ≠ [] → pyTruthy host = false →
      mainRun fs script_dir host token api listing input_file = (1, none)) ∧
    (∀ fileLines, dictGet (joinPath script_dir input_file) fs = some fileLines →
      collectIds fileLines ≠ [] → pyTruthy host = true → pyTruthy token = false →
      mainRun fs script_dir host token api listing input_file = (1, none)) ∧
    (∀ fileLines, dictGet (joinPath script_dir input_file) fs = some fileLines →
      collectIds fileLines ≠ [] → pyTruthy host = true → pyTruthy token = true →
      listing = ListingOutcome.failure →
      mainRun fs script_dir host token api listing input_file = (1, none)) ∧
    (∀ fileLines, dictGet (joinPath script_dir input_file) fs = some fileLines →
      collectIds fileLines ≠ [] → pyTruthy host = true → pyTruthy token = true →
      listing = ListingOutcome.interrupted →
      mainRun fs script_dir host token api listing input_file = (1, none)) ∧
    (∀ fileLines listed, dictGet (joinPath script_dir input_file) fs = some fileLines →
      collectIds fileLines ≠ [] → pyTruthy host = true → pyTruthy token = true →
      listing = ListingOutcome.ok listed →
      mainRun fs script_dir host token api listing input_file =
        (0, export_to_csv (processIdentifiers api (buildIndex listed).1
          (buildIndex listed).2 (collectIds fileLines) []).clusters)) := by
  refine ⟨?_, ?_, ?_, ?_, ?_, ?_, ?_⟩
  · intro h
    simp [mainRun, read_cluster_list, h]
  · intro fileLines h hids
    simp [mainRun, read_cluster_list, h, hids]
  · intro fileLines h hids hhost
    simp [mainRun, read_cluster_list, h, List.isEmpty_iff, hids, hhost]
  · intro fileLines h hids hhost htoken
    simp [mainRun, read_cluster_list, h, List.isEmpty_iff, hids, hhost, htoken]
  · intro fileLines h hids hhost htoken hlist
    simp [mainRun, read_cluster_list, h, List.isEmpty_iff, hids, hhost, htoken, hlist]
  · intro fileLines h hids hhost htoken hlist
    simp [mainRun, read_cluster_list, h, List.isEmpty_iff, hids, hhost, htoken, hlist]
  · intro fileLines listed h hids hhost htoken hlist
    simp [mainRun, read_cluster_list, h, List.isEmpty_iff, hids, hhost, htoken, hlist]

/-- C9 witness: concrete runs hitting every exit path.  The input file
`in.txt` holds one identifier; `empty.txt` holds only a comment line. -/
theorem mainRun_exit_codes_witness :
    (mainRun [] "." (some ("h")) (some ("t")) (fun _ => Except.error ())
      (ListingOutcome.ok []) "in.txt" = (1, none)) ∧
    (mainRun [("./empty.txt", ["# only a comment"])] "." (some ("h")) (some ("t"))
      (fun _ => Except.error ()) (ListingOutcome.ok []) "empty.txt" = (1, none)) ∧
    (mainRun [("./in.txt", ["A"])] "." none (some ("t"))
      (fun _ => Except.error ()) (ListingOutcome.ok []) "in.txt" = (1, none)) ∧
    (mainRun [("./in.txt", ["A"])] "." (some ("h")) none
      (fun _ => Except.error ()) (ListingOutcome.ok []) "in.txt" = (1, none)) ∧
    (mainRun [("./in.txt", ["A"])] "." (some ("h")) (some ("t"))
      (fun _ => Except.error ()) ListingOutcome.failure ("in.txt") = (1, none)) ∧
    (mainRun [("./in.txt", ["A"])] "." (some ("h")) (some ("t"))
      (fun _ => Except.error ()) ListingOutcome.interrupted ("in.txt") = (1, none)) ∧
    (mainRun [("./in.txt", ["A"])] "." (some ("h")) (some ("t"))
      (fun _ => Except.error ()) (ListingOutcome.ok []) "in.txt" = (0, none)) := by
  refine ⟨?_, ?_, ?_, ?_, ?_, ?_, ?_⟩
  · exact (mainRun_exit_codes [] "." (some ("h")) (some ("t")) (fun _ => Except.error ())
      (ListingOutcome.ok []) "in.txt").1 rfl
  · exact (mainRun_exit_codes _ (".") (some ("h")) (some ("t")) (fun _ => Except.error ())
      (ListingOutcome.ok []) "empty.txt").2.1 ["# only a comment"] rfl (by decide)
  · exact (mainRun_exit_codes _ (".") none (some ("t")) (fun _ => Except.error ())
      (ListingOutcome.ok []) "in.txt").2.2.1 ["A"] rfl (by decide) rfl
  · exact (mainRun_exit_codes _ (".") (some ("h")) none (fun _ => Except.error ())
      (ListingOutcome.ok []) "in.txt").2.2.2.1 ["A"] rfl (by decide) rfl rfl
  · exact (mainRun_exit_codes _ (".") (some ("h")) (some ("t")) (fun _ => Except.error ())
      ListingOutcome.failure ("in.txt")).2.2.2.2.1 ["A"] rfl (by decide) rfl rfl rfl
  · exact (mainRun_exit_codes _ (".") (some ("h")) (some ("t")) (fun _ => Except.error ())
      ListingOutcome.interrupted ("in.txt")).2.2.2.2.2.1 ["A"] rfl (by decide) rfl rfl rfl
  · have h := (mainRun_exit_codes [("./in.txt", ["A"])] "." (some ("h")) (some ("t"))
      (fun _ => Except.error ()) (ListingOutcome.ok []) "in.txt").2.2.2.2.2.2
      ["A"] [] rfl (by decide) rfl rfl rfl
    rw [h]
    rfl

/-! ## Input path resolution (C10) -/

/-- C10: the reader resolves the input path against the directory containing
the script itself (`Path(__file__).parent / filepath`), never against the
process working directory: whenever the script-relative path is absent from
the filesystem, the run fails fatally with no CSV — even if the same file
name exists relative to the working directory. -/
theorem read_cluster_list_script_dir_relative (fs : List (String × List String))
    (script_dir cwd input_file : String) (fileLines : List String)
    (habsent : dictGet (joinPath script_dir input_file) fs = none)
    (hcwd : dictGet (joinPath cwd input_file) fs = some fileLines) :
    read_cluster_list fs script_dir input_file = Except.error () ∧
    ∀ host token api listing,
      mainRun fs script_dir host token api listing input_file = (1, none) := by
  constructor
  · simp [read_cluster_list, habsent]
  · intro host token api listing
    simp [mainRun, read_cluster_list, habsent]

/-- C10 witness: `in.txt` exists in the working directory `/cwd` but not next
to the script in `/app`; the reader fails fatally. -/
theorem read_cluster_list_script_dir_relative_witness :
    read_cluster_list [("/cwd/in.txt", ["A"])] "/app" "in.txt" = Except.error () ∧
    mainRun [("/cwd/in.txt", ["A"])] "/app" (some ("h")) (some ("t"))
      (fun _ => Except.error ()) (ListingOutcome.ok []) "in.txt" = (1, none) := by
  have h := read_cluster_list_script_dir_relative [("/cwd/in.txt", ["A"])]
    "/app" "/cwd" "in.txt" ["A"] (by decide) (by decide)
  exact ⟨h.1, h.2 (some ("h")) (some ("t")) (fun _ => Except.error ()) (ListingOutcome.ok [])⟩

end ListCompute
